import Mathlib

/-!
Shallow embedding of `src/server.py` (library-catalog loan-notification server).

The embedded pieces are:
* `sanitize` — the sanitization step of `validate_loan_request`
  (`re.sub(r'[<>"\']', '', s).strip()`), over Unicode code points,
  with the whitespace set of `str.strip` modelled on its ASCII part;
* `emailAnchored` / `emailPyMatch` — the email regular expression
  `^[a-zA-Z0-9._%+-]+@[a-zA-Z0-9.-]+\.[a-zA-Z]{2,}$` of line 139, as pure
  existential language membership, with `emailPyMatch` adding the Python
  semantics of `re.match` and the final `$` (which also matches just
  before one trailing newline);
* `validate_loan_request` — lines 121-147, over a record of the four
  JSON fields (`none` models an absent key, Python truthiness of a string
  is emptiness);
* `check_rate_limit` — lines 149-165, with `time.time()` timestamps
  modelled as integers and the `defaultdict(list)` table as a total
  function from client address to timestamp list;
* `send_loan_notification` / `get_auth_token` — lines 25-119, with the
  process environment and the reply of the external mail relay passed in
  explicitly; the second component of the result records the outbound
  call (`none` = the relay was never contacted);
* `do_POST` — lines 184-254, the `/api/loan-notification` branch, with
  the body already decoded (`none` models a JSON parse failure) and the
  `Content-Length` header as an `Option` (`none` = header absent, which
  in the source makes `int(None)` raise a `TypeError` that the catch-all
  handler converts to a 500 response).
-/

set_option maxHeartbeats 1000000

set_option maxRecDepth 100000

/-- The double-quote character, by code point. -/
def dquote : Char := Char.ofNat 34

/-- The single-quote character, by code point. -/
def squote : Char := Char.ofNat 39

/-- Characters removed by the sanitization step `re.sub(r'[<>"\']', '', s)`
(src/server.py line 145). -/
def isBadChar (c : Char) : Bool :=
  c = '<' || c = '>' || c = dquote || c = squote

/-- Whitespace stripped by Python `str.strip`, modelled on the ASCII range
(space, tab, newline, carriage return, vertical tab, form feed). -/
def isPySpace (c : Char) : Bool :=
  c = ' ' || c = Char.ofNat 9 || c = Char.ofNat 10 || c = Char.ofNat 13 ||
  c = Char.ofNat 11 || c = Char.ofNat 12

/-- Python `str.strip`: drop leading and trailing whitespace. -/
def pyStrip (l : List Char) : List Char :=
  ((l.dropWhile isPySpace).reverse.dropWhile isPySpace).reverse

/-- Sanitization of one text field (src/server.py line 145): remove every
occurrence of `<`, `>`, `"`, `'`, then strip surrounding whitespace. -/
def sanitize (s : String) : String :=
  String.mk (pyStrip (s.data.filter (fun c => !isBadChar c)))

/-- Character class `[a-zA-Z0-9._%+-]` of the email local part. -/
def isLocalChar (c : Char) : Bool :=
  c.isAlpha || c.isDigit || c = '.' || c = '_' || c = '%' || c = '+' || c = '-'

/-- Character class `[a-zA-Z0-9.-]` of the email domain part. -/
def isDomainChar (c : Char) : Bool :=
  c.isAlpha || c.isDigit || c = '.' || c = '-'

/-- All decompositions of a list into a prefix and the remaining suffix. -/
def splits : List Char → List (List Char × List Char)
  | [] => [([], [])]
  | c :: t => ([], c :: t) :: (splits t).map (fun p => (c :: p.1, p.2))

/-- Membership in the language of
`[a-zA-Z0-9._%+-]+@[a-zA-Z0-9.-]+\.[a-zA-Z]{2,}` anchored at both the very
start and the very end of the string: some decomposition
`local ++ "@" ++ domain ++ "." ++ tld` covers the whole input, with a
nonempty all-local-class local part, a nonempty all-domain-class domain
part, and a TLD of at least two ASCII letters. -/
def emailAnchored (cs : List Char) : Bool :=
  (splits cs).any (fun p =>
    !p.1.isEmpty && p.1.all isLocalChar &&
    (match p.2 with
     | '@' :: r =>
       (splits r).any (fun q =>
         !q.1.isEmpty && q.1.all isDomainChar &&
         (match q.2 with
          | '.' :: t => decide (2 ≤ t.length) && t.all Char.isAlpha
          | _ => false))
     | _ => false))

/-- The check `re.match(email_pattern, s)` of src/server.py line 140 with
Python semantics of the final `$`: the dollar matches at the end of the
string, or just before a newline that is the last character. -/
def emailPyMatch (s : String) : Bool :=
  emailAnchored s.data ||
  (match s.data.getLast? with
   | some c => c = Char.ofNat 10 && emailAnchored s.data.dropLast
   | none => false)

/-- The four fields of the loan-notification JSON body; `none` models an
absent key. Values of other JSON types are out of scope: the source only
ever treats these values as strings. -/
structure LoanData where
  book_title : Option String
  book_author : Option String
  borrower_name : Option String
  borrower_email : Option String
deriving DecidableEq

/-- Python test `field not in data or not data[field]` on a string field:
the key is absent, or its value is falsy (the empty string). -/
def fieldMissing : Option String → Bool
  | none => true
  | some s => s = ""

/-- The required-field loop of src/server.py lines 126-128: the first
field of `['book_title', 'book_author', 'borrower_name', 'borrower_email']`
that is absent or falsy, in source order. -/
def missingCheck (d : LoanData) : Option String :=
  if fieldMissing d.book_title then some "book_title"
  else if fieldMissing d.book_author then some "book_author"
  else if fieldMissing d.borrower_name then some "borrower_name"
  else if fieldMissing d.borrower_email then some "borrower_email"
  else none

/-- `validate_loan_request` (src/server.py lines 121-147). Returns
`(is_valid, error_msg, data-after-the-call)`: the Python function mutates
the dict in place, so the final component is the dict as the caller sees
it afterwards (sanitized exactly when every check passed). -/
def validate_loan_request (d : LoanData) : Bool × String × LoanData :=
  match missingCheck d with
  | some f => (false, "Missing required field: " ++ f, d)
  | none =>
    if (d.book_title.getD "").length > 255 then
      (false, "Book title too long (max 255 characters)", d)
    else if (d.book_author.getD "").length > 100 then
      (false, "Book author too long (max 100 characters)", d)
    else if (d.borrower_name.getD "").length > 100 then
      (false, "Borrower name too long (max 100 characters)", d)
    else if !emailPyMatch (d.borrower_email.getD "") then
      (false, "Invalid borrower email format", d)
    else
      (true, "Valid",
        { d with
          book_title := some (sanitize (d.book_title.getD "")),
          book_author := some (sanitize (d.book_author.getD "")),
          borrower_name := some (sanitize (d.borrower_name.getD "")) })

/-- RATE_LIMIT_WINDOW of src/server.py line 21: 300 seconds. -/
def RATE_LIMIT_WINDOW : Int := 300

/-- RATE_LIMIT_MAX_REQUESTS of src/server.py line 22: 3 requests. -/
def RATE_LIMIT_MAX_REQUESTS : Nat := 3

/-- The `rate_limit_tracker` table (`defaultdict(list)`): every client
address maps to its list of request timestamps, starting at `[]`. -/
abbrev RateState := String → List Int

/-- `check_rate_limit` (src/server.py lines 149-165): prune the client's
timestamps to those with `current_time - timestamp < RATE_LIMIT_WINDOW`,
reject when at least `RATE_LIMIT_MAX_REQUESTS` remain, otherwise append
the current time and admit. Returns the verdict and the table after the
call's mutations. -/
def check_rate_limit (now : Int) (client_ip : String) (st : RateState) :
    Bool × RateState :=
  let pruned := (st client_ip).filter (fun ts => now - ts < RATE_LIMIT_WINDOW)
  if RATE_LIMIT_MAX_REQUESTS ≤ pruned.length then
    (false, fun k => if k = client_ip then pruned else st k)
  else
    (true, fun k => if k = client_ip then pruned ++ [now] else st k)

/-- A sequence of rate-limit checks for one client, at the given list of
times, threading the table through; returns the list of verdicts and the
final table. -/
def runChecks (ip : String) : List Int → RateState → List Bool × RateState
  | [], st => ([], st)
  | t :: ts, st =>
    let r := check_rate_limit t ip st
    let rest := runChecks ip ts r.2
    (r.1 :: rest.1, rest.2)

/-- Projection of one rate-limit check to the single list stored under the
checked key; `check_rate_limit` touches no other key. -/
def checkList (now : Int) (l : List Int) : Bool × List Int :=
  let pruned := l.filter (fun ts => now - ts < RATE_LIMIT_WINDOW)
  if RATE_LIMIT_MAX_REQUESTS ≤ pruned.length then (false, pruned)
  else (true, pruned ++ [now])

/-- Projection of `runChecks` to the single list stored under the key. -/
def runList : List Int → List Int → List Bool × List Int
  | [], l => ([], l)
  | t :: ts, l =>
    let r := checkList t l
    let rest := runList ts r.2
    (r.1 :: rest.1, rest.2)

/-- Result record built by `send_loan_notification` and by the handler's
error paths: a JSON object with a `success` flag and an optional
`message` or `error` string. -/
structure NotificationResult where
  success : Bool
  message : Option String := none
  error : Option String := none
deriving DecidableEq

/-- The environment variables read by the mailer (src/server.py lines
27-28 and 40); `none` models an unset variable. -/
structure MailEnv where
  ADMIN_EMAIL : Option String
  REPL_IDENTITY : Option String
  WEB_REPL_RENEWAL : Option String

/-- Python truthiness of an optional environment string: present and
nonempty. -/
def truthy : Option String → Bool
  | none => false
  | some s => !(s == "")

/-- Reply of the external mail relay to the outbound POST, passed to the
embedded dispatcher explicitly. `reply code jsonMessage text`: the relay
answered with HTTP status `code`; `jsonMessage = some (some m)` means the
body parsed as JSON carrying a `message` field `m`, `some none` means it
parsed as JSON without a usable `message` field, and `none` means
`response.json()` (or the `.get` on its result) raised, so the fallback
uses the raw body `text`. `transportError desc` models `requests.post`
itself raising, with `str(e) = desc`. -/
inductive RelayOutcome where
  | reply (code : Nat) (jsonMessage : Option (Option String)) (text : String)
  | transportError (desc : String)

/-- The outbound mail call, as far as the embedded claims observe it: the
recipient and subject line (the text/html renderings embed the wall-clock
timestamp and are not modelled). -/
structure MailPayload where
  toAddr : String
  subject : String
deriving DecidableEq

/-- `get_auth_token` (src/server.py lines 25-35); `none` models the
`raise` when neither variable is truthy, which the caller's `except`
turns into an error result. -/
def get_auth_token (env : MailEnv) : Option String :=
  if truthy env.REPL_IDENTITY then some ("repl " ++ env.REPL_IDENTITY.getD "")
  else if truthy env.WEB_REPL_RENEWAL then
    some ("depl " ++ env.WEB_REPL_RENEWAL.getD "")
  else none

/-- Message of the exception raised by `get_auth_token`. -/
def NO_AUTH_TOKEN_MSG : String :=
  "No authentication token found. Ensure you're running in Replit environment."

/-- `send_loan_notification` (src/server.py lines 37-119). The first
component is the returned `NotificationResult`; the second is the
outbound call to the relay (`none` = the relay was never contacted). -/
def send_loan_notification (env : MailEnv) (relay : RelayOutcome)
    (book_title book_author borrower_name borrower_email : String) :
    NotificationResult × Option MailPayload :=
  if !truthy env.ADMIN_EMAIL then
    ({ success := false, error := some "Admin email not configured" }, none)
  else
    match get_auth_token env with
    | none =>
      ({ success := false, error := some NO_AUTH_TOKEN_MSG }, none)
    | some _ =>
      let payload : MailPayload :=
        { toAddr := env.ADMIN_EMAIL.getD "",
          subject := "📚 Nuevo Préstamo - " ++ book_title }
      match relay with
      | .reply code jm text =>
        if code = 200 then
          ({ success := true, message := some "Notification sent successfully" },
           some payload)
        else
          match jm with
          | some (some m) =>
            ({ success := false, error := some m }, some payload)
          | some none =>
            ({ success := false,
               error := some ("Email service error: " ++ toString code) },
             some payload)
          | none =>
            ({ success := false,
               error := some ("Email service error: " ++ toString code ++ " - " ++ text) },
             some payload)
      | .transportError desc =>
        ({ success := false, error := some desc }, some payload)

/-- One POST to `/api/loan-notification`, as the handler observes it:
the client address, the current time, the `Content-Length` header
(`none` = absent, making `int(self.headers['Content-Length'])` raise),
and the decoded JSON body (`none` = `json.loads` raises
`JSONDecodeError`). -/
structure PostRequest where
  client_ip : String
  now : Int
  content_length : Option Nat
  body : Option LoanData

/-- A response of the handler: HTTP status plus the JSON body. -/
structure HttpResponse where
  status : Nat
  body : NotificationResult
deriving DecidableEq

/-- Message of the `TypeError` raised by `int(None)` when the
`Content-Length` header is absent (CPython wording), which the catch-all
`except Exception` serializes into the 500 body. -/
def CONTENT_LENGTH_TYPE_ERROR : String :=
  "int() argument must be a string, a bytes-like object or a real number, not 'NoneType'"

/-- The `/api/loan-notification` branch of `MyHTTPRequestHandler.do_POST`
(src/server.py lines 184-254): rate-limit gate, Content-Length read and
size check, JSON parse, validation, dispatch; returns the response and
the rate table after the call. -/
def do_POST (env : MailEnv) (relay : RelayOutcome) (req : PostRequest)
    (st : RateState) : HttpResponse × RateState :=
  match check_rate_limit req.now req.client_ip st with
  | (false, st2) =>
    ({ status := 429,
       body := { success := false,
                 error := some "Rate limit exceeded. Please try again later." } },
     st2)
  | (true, st2) =>
    match req.content_length with
    | none =>
      ({ status := 500,
         body := { success := false, error := some CONTENT_LENGTH_TYPE_ERROR } },
       st2)
    | some len =>
      if len > 10000 then
        ({ status := 413,
           body := { success := false, error := some "Request too large" } },
         st2)
      else
        match req.body with
        | none =>
          ({ status := 400,
             body := { success := false, error := some "Invalid JSON" } },
           st2)
        | some data =>
          match validate_loan_request data with
          | (false, msg, _) =>
            ({ status := 400,
               body := { success := false, error := some msg } },
             st2)
          | (true, _, d2) =>
            let r := (send_loan_notification env relay
              (d2.book_title.getD "") (d2.book_author.getD "")
              (d2.borrower_name.getD "") (d2.borrower_email.getD "")).1
            ({ status := if r.success then 200 else 500, body := r }, st2)

/-- Boolean form of "contains no `<`, `>`, `"`, `'` character". -/
def noBadChars (s : String) : Bool :=
  s.data.all (fun c => !isBadChar c)

/-- Boolean form of "has no leading and no trailing whitespace". -/
def noEdgeSpace (s : String) : Bool :=
  (match s.data.head? with
   | some c => !isPySpace c
   | none => true) &&
  (match s.data.getLast? with
   | some c => !isPySpace c
   | none => true)

/-- The Dune scenario body of the spec, with all fields valid. -/
def duneData : LoanData :=
  { book_title := some "Dune", book_author := some "Herbert",
    borrower_name := some "Ana", borrower_email := some "ana@example.com" }

lemma mem_pyStrip {c : Char} {l : List Char} (h : c ∈ pyStrip l) : c ∈ l := by
  unfold pyStrip at h
  rw [List.mem_reverse] at h
  have h2 := (List.dropWhile_sublist isPySpace).subset h
  rw [List.mem_reverse] at h2
  exact (List.dropWhile_sublist isPySpace).subset h2

lemma head?_pyStrip_not {l : List Char} {c : Char}
    (h : (pyStrip l).head? = some c) : isPySpace c = false := by
  unfold pyStrip at h
  rw [List.head?_reverse] at h
  obtain ⟨s, hs⟩ := List.dropWhile_suffix (l := (l.dropWhile isPySpace).reverse)
    (p := isPySpace)
  have hlast : ((l.dropWhile isPySpace).reverse).getLast? = some c := by
    rw [← hs, List.getLast?_append, h]
    rfl
  rw [List.getLast?_reverse] at hlast
  have h3 := List.head?_dropWhile_not isPySpace l
  rw [hlast] at h3
  exact h3

lemma getLast?_pyStrip_not {l : List Char} {c : Char}
    (h : (pyStrip l).getLast? = some c) : isPySpace c = false := by
  unfold pyStrip at h
  rw [List.getLast?_reverse] at h
  have h3 := List.head?_dropWhile_not isPySpace (l.dropWhile isPySpace).reverse
  rw [h] at h3
  exact h3

lemma sanitize_noBadChars (s : String) : noBadChars (sanitize s) = true := by
  rw [noBadChars, List.all_eq_true]
  intro c hc
  have h1 : c ∈ s.data.filter (fun c => !isBadChar c) := mem_pyStrip hc
  exact (List.mem_filter.mp h1).2

lemma sanitize_noEdgeSpace (s : String) : noEdgeSpace (sanitize s) = true := by
  rw [noEdgeSpace, Bool.and_eq_true]
  constructor
  · cases hh : (sanitize s).data.head? with
    | none => simp
    | some c => simp [head?_pyStrip_not hh]
  · cases hh : (sanitize s).data.getLast? with
    | none => simp
    | some c => simp [getLast?_pyStrip_not hh]

/-- C2. Sanitization postcondition of `validate_loan_request`: whenever
validation succeeds, the three free-text fields of the returned record
are exactly the sanitization of the submitted ones, so they contain no
`<`, `>`, `"`, `'` and no leading or trailing whitespace; and because the
length checks ran before sanitization, the ORIGINAL texts already obey
the length bounds. -/
theorem c2_sanitization_postcondition (d : LoanData)
    (h : (validate_loan_request d).1 = true) :
    (validate_loan_request d).2.2.book_title = some (sanitize (d.book_title.getD ""))
    ∧ (validate_loan_request d).2.2.book_author = some (sanitize (d.book_author.getD ""))
    ∧ (validate_loan_request d).2.2.borrower_name = some (sanitize (d.borrower_name.getD ""))
    ∧ noBadChars ((validate_loan_request d).2.2.book_title.getD "") = true
    ∧ noBadChars ((validate_loan_request d).2.2.book_author.getD "") = true
    ∧ noBadChars ((validate_loan_request d).2.2.borrower_name.getD "") = true
    ∧ noEdgeSpace ((validate_loan_request d).2.2.book_title.getD "") = true
    ∧ noEdgeSpace ((validate_loan_request d).2.2.book_author.getD "") = true
    ∧ noEdgeSpace ((validate_loan_request d).2.2.borrower_name.getD "") = true
    ∧ (d.book_title.getD "").length ≤ 255
    ∧ (d.book_author.getD "").length ≤ 100
    ∧ (d.borrower_name.getD "").length ≤ 100 := by
  unfold validate_loan_request at h ⊢
  cases hm : missingCheck d with
  | some f => rw [hm] at h; simp at h
  | none =>
    rw [hm] at h
    dsimp only at h ⊢
    split_ifs at h ⊢ with h1 h2 h3 h4 <;> try simp at h
    refine ⟨rfl, rfl, rfl, ?_, ?_, ?_, ?_, ?_, ?_, by omega, by omega, by omega⟩
      <;> simp [sanitize_noBadChars, sanitize_noEdgeSpace]

/-- Witness for C2 at the spec's Dune scenario body. -/
theorem c2_sanitization_postcondition_witness :
    noBadChars ((validate_loan_request duneData).2.2.book_title.getD "") = true := by
  have h := c2_sanitization_postcondition duneData (by decide)
  exact h.2.2.2.1

/-- C8. Validation failure mutates nothing: on every failing input the
record handed back is exactly the one passed in; sanitization happens
only on the all-checks-passed path. -/
theorem c8_failure_leaves_input_unchanged (d : LoanData)
    (h : (validate_loan_request d).1 = false) :
    (validate_loan_request d).2.2 = d := by
  unfold validate_loan_request at h ⊢
  cases hm : missingCheck d with
  | some f => rfl
  | none =>
    rw [hm] at h
    dsimp only at h ⊢
    split_ifs at h ⊢ with h1 h2 h3 h4 <;> first | rfl | simp at h

/-- Witness for C8 at a body whose borrower email is rejected. -/
theorem c8_failure_leaves_input_unchanged_witness :
    (validate_loan_request
      { duneData with borrower_email := some "not-an-email" }).2.2 =
      { duneData with borrower_email := some "not-an-email" } :=
  c8_failure_leaves_input_unchanged
    { duneData with borrower_email := some "not-an-email" } (by decide)

/-- Body whose title consists only of removed characters and whitespace;
it passes validation, yet sanitizes to the empty string. -/
def quotesOnlyData : LoanData :=
  { book_title := some (String.mk ['<', squote, dquote, '>', ' ']),
    book_author := some "Herbert",
    borrower_name := some "Ana",
    borrower_email := some "ana@example.com" }

/-- C9. Validation success does not guarantee nonempty sanitized fields:
a title made only of `<`, `'`, `"`, `>` and a space passes every check
(it is nonempty and short), yet its sanitized form is the empty string —
the emptiness test runs before sanitization, never after. -/
theorem c9_success_can_sanitize_to_empty :
    (validate_loan_request quotesOnlyData).1 = true
    ∧ (validate_loan_request quotesOnlyData).2.2.book_title = some "" := by
  decide

/-- First failing check of an ordered list of (failed?, message) pairs. -/
def firstFailure : List (Bool × String) → Option String
  | [] => none
  | p :: rest => if p.1 then some p.2 else firstFailure rest

/-- Check order written from the spec's wording: the four required fields
first, in order, each failing with "Missing required field: <name>"; then
the three length bounds with their field-specific messages; then the
email syntax check. `some msg` = validation fails with `msg`. -/
def validatorSpecOrder (d : LoanData) : Option String :=
  firstFailure
    [ (fieldMissing d.book_title, "Missing required field: book_title"),
      (fieldMissing d.book_author, "Missing required field: book_author"),
      (fieldMissing d.borrower_name, "Missing required field: borrower_name"),
      (fieldMissing d.borrower_email, "Missing required field: borrower_email"),
      (decide ((d.book_title.getD "").length > 255),
        "Book title too long (max 255 characters)"),
      (decide ((d.book_author.getD "").length > 100),
        "Book author too long (max 100 characters)"),
      (decide ((d.borrower_name.getD "").length > 100),
        "Borrower name too long (max 100 characters)"),
      (!emailPyMatch (d.borrower_email.getD ""),
        "Invalid borrower email format") ]

/-- The Dune body with the title replaced by `n` copies of `a`. -/
def titleOfLength (n : Nat) : LoanData :=
  { duneData with book_title := some (String.mk (List.replicate n 'a')) }

/-- C4. Validator check order and messages: on every input the verdict
and the message of `validate_loan_request` agree with the first failure
of the spec's ordered check list (required fields, then length bounds,
then email); a title of exactly 255 characters passes the length check
while 256 characters fails with the title-length message. -/
theorem c4_check_order_and_messages :
    (∀ d : LoanData,
      (validate_loan_request d).1 = (validatorSpecOrder d).isNone
      ∧ (validate_loan_request d).2.1 = (validatorSpecOrder d).getD "Valid")
    ∧ (validate_loan_request (titleOfLength 255)).1 = true
    ∧ (validate_loan_request (titleOfLength 256)).1 = false
    ∧ (validate_loan_request (titleOfLength 256)).2.1 =
        "Book title too long (max 255 characters)" := by
  refine ⟨fun d => ?_, by decide, by decide, by decide⟩
  unfold validate_loan_request validatorSpecOrder missingCheck
  split_ifs <;> simp_all [firstFailure]
  all_goals (try split_ifs)
  all_goals (try omega)
  all_goals simp_all

/-- The Dune body with a trailing newline appended to the email. -/
def newlineEmailData : LoanData :=
  { duneData with
    borrower_email := some ("ana@example.com" ++ String.mk [Char.ofNat 10]) }

/-- C3, counterexample. The borrower email "ana@example.com\n" is NOT in
the language of the grammar anchored at both the start and the end of
the string (the trailing newline is an extra character), and the body
passes every required-field and length check; yet validation succeeds —
it does not fail with "Invalid borrower email format" — because the `$`
of the Python pattern also matches just before a trailing newline. This
refutes the claimed "if and only if". -/
theorem c3_counterexample :
    emailAnchored ("ana@example.com" ++ String.mk [Char.ofNat 10]).data = false
    ∧ missingCheck newlineEmailData = none
    ∧ (newlineEmailData.book_title.getD "").length ≤ 255
    ∧ (newlineEmailData.book_author.getD "").length ≤ 100
    ∧ (newlineEmailData.borrower_name.getD "").length ≤ 100
    ∧ (validate_loan_request newlineEmailData).1 = true
    ∧ (validate_loan_request newlineEmailData).2.1 = "Valid" := by
  decide

/-- C3, amended. For every body that passes the required-field and length
checks, validation fails with exactly "Invalid borrower email format" if
and only if the borrower email fails the Python `re.match` of the
pattern: the grammar anchored at the start, where the final `$` accepts
either the very end of the string or the position just before a single
trailing newline. -/
theorem c3_amended_email_check (d : LoanData)
    (hm : missingCheck d = none)
    (ht : (d.book_title.getD "").length ≤ 255)
    (ha : (d.book_author.getD "").length ≤ 100)
    (hn : (d.borrower_name.getD "").length ≤ 100) :
    ((validate_loan_request d).1 = false
      ∧ (validate_loan_request d).2.1 = "Invalid borrower email format")
    ↔ emailPyMatch (d.borrower_email.getD "") = false := by
  unfold validate_loan_request
  rw [hm]
  dsimp only
  rw [if_neg (by omega), if_neg (by omega), if_neg (by omega)]
  cases he : emailPyMatch (d.borrower_email.getD "") <;> simp

/-- Witness for the amended C3 at the spec's not-an-email scenario. -/
theorem c3_amended_email_check_witness :
    (validate_loan_request
        { duneData with borrower_email := some "not-an-email" }).1 = false
    ∧ (validate_loan_request
        { duneData with borrower_email := some "not-an-email" }).2.1 =
        "Invalid borrower email format" :=
  (c3_amended_email_check
    { duneData with borrower_email := some "not-an-email" }
    (by decide) (by decide) (by decide) (by decide)).mpr (by decide)

lemma check_fst_eq (now : Int) (ip : String) (st : RateState) :
    (check_rate_limit now ip st).1 = (checkList now (st ip)).1 := by
  simp only [check_rate_limit, checkList]
  split <;> rfl

lemma check_snd_ip (now : Int) (ip : String) (st : RateState) :
    (check_rate_limit now ip st).2 ip = (checkList now (st ip)).2 := by
  simp only [check_rate_limit, checkList]
  split <;> simp

lemma runChecks_fst (ip : String) (ts : List Int) :
    ∀ st : RateState, (runChecks ip ts st).1 = (runList ts (st ip)).1 := by
  induction ts with
  | nil => intro st; rfl
  | cons t ts ih =>
    intro st
    simp only [runChecks, runList]
    rw [check_fst_eq, ih, check_snd_ip]

/-- C1. Sliding-window rate limiting. Per call: the client's stored
timestamps are pruned to those younger than 300 seconds, the call admits
exactly when fewer than 3 remain, a rejected call records nothing, and an
admitted call appends the current time. In particular, for any client
whose table entry starts empty, a 4th request within a 300-second window
of the first is rejected, and a request 301 seconds after the first is
admitted. -/
theorem c1_sliding_window_rate_limit :
    (∀ (now : Int) (ip : String) (st : RateState),
      ((check_rate_limit now ip st).1 = true
        ↔ ((st ip).filter (fun ts => now - ts < 300)).length < 3)
      ∧ ((check_rate_limit now ip st).1 = false →
          (check_rate_limit now ip st).2 ip
            = (st ip).filter (fun ts => now - ts < 300))
      ∧ ((check_rate_limit now ip st).1 = true →
          (check_rate_limit now ip st).2 ip
            = (st ip).filter (fun ts => now - ts < 300) ++ [now]))
    ∧ (∀ (t1 t2 t3 t4 : Int) (ip : String) (st : RateState),
        st ip = [] → t1 ≤ t2 → t2 ≤ t3 → t3 ≤ t4 → t4 - t1 < 300 →
        (runChecks ip [t1, t2, t3, t4, t1 + 301] st).1
          = [true, true, true, false, true]) := by
  constructor
  · intro now ip st
    simp only [check_rate_limit, RATE_LIMIT_WINDOW, RATE_LIMIT_MAX_REQUESTS]
    split_ifs with h
    · refine ⟨by simp; omega, fun _ => by simp, fun hc => by simp at hc⟩
    · refine ⟨by simp; omega, fun hc => by simp at hc, fun _ => by simp⟩
  · intro t1 t2 t3 t4 ip st hst h12 h23 h34 hw
    rw [runChecks_fst, hst]
    have e1 : checkList t1 [] = (true, [t1]) := by
      simp [checkList, RATE_LIMIT_WINDOW, RATE_LIMIT_MAX_REQUESTS]
    have h21 : t2 - t1 < 300 := by omega
    have e2 : checkList t2 [t1] = (true, [t1, t2]) := by
      simp [checkList, RATE_LIMIT_WINDOW, RATE_LIMIT_MAX_REQUESTS,
        List.filter, h21]
    have h31 : t3 - t1 < 300 := by omega
    have h32 : t3 - t2 < 300 := by omega
    have e3 : checkList t3 [t1, t2] = (true, [t1, t2, t3]) := by
      simp [checkList, RATE_LIMIT_WINDOW, RATE_LIMIT_MAX_REQUESTS,
        List.filter, h31, h32]
    have h41 : t4 - t1 < 300 := by omega
    have h42 : t4 - t2 < 300 := by omega
    have h43 : t4 - t3 < 300 := by omega
    have e4 : checkList t4 [t1, t2, t3] = (false, [t1, t2, t3]) := by
      simp [checkList, RATE_LIMIT_WINDOW, RATE_LIMIT_MAX_REQUESTS,
        List.filter, h41, h42, h43]
    have h51 : ¬(t1 + 301 - t1 < 300) := by omega
    have e5 : (checkList (t1 + 301) [t1, t2, t3]).1 = true := by
      have hf : (([t2, t3]).filter
          (fun ts => t1 + 301 - ts < RATE_LIMIT_WINDOW)).length ≤ 2 := by
        have := List.length_filter_le
          (fun ts => decide (t1 + 301 - ts < RATE_LIMIT_WINDOW)) [t2, t3]
        simpa using this
      simp only [checkList, RATE_LIMIT_WINDOW, RATE_LIMIT_MAX_REQUESTS] at hf ⊢
      rw [List.filter_cons_of_neg (by simpa using h51)]
      rw [if_neg (by omega)]
    simp only [runList, e1, e2, e3, e4]
    simp [e5]

/-- Witness for C1 at concrete request times 0, 1, 2, 3 and 301. -/
theorem c1_sliding_window_rate_limit_witness :
    (runChecks "client" [0, 1, 2, 3, 0 + 301] (fun _ => [])).1
      = [true, true, true, false, true] :=
  c1_sliding_window_rate_limit.2 0 1 2 3 "client" (fun _ => [])
    rfl (by decide) (by decide) (by decide) (by decide)

/-- C7. Rate-window table invariant: right after a check for a client
key whose entry had timestamps no later than `now` and length at most 3,
the stored entry holds only timestamps within `[now - 300, now]`, its
length is still at most 3, every other key's entry is untouched, and the
entry is exactly the pruned list, or the pruned list plus the one
timestamp the check appended. -/
lemma check_snd_ne (now : Int) (ip : String) (st : RateState) (k : String)
    (hk : k ≠ ip) : (check_rate_limit now ip st).2 k = st k := by
  simp only [check_rate_limit]
  split <;> simp [hk]

theorem c7_table_invariant (now : Int) (ip : String) (st : RateState)
    (hle : ∀ t ∈ st ip, t ≤ now) (hlen : (st ip).length ≤ 3) :
    (∀ t ∈ (check_rate_limit now ip st).2 ip, now - 300 ≤ t ∧ t ≤ now)
    ∧ ((check_rate_limit now ip st).2 ip).length ≤ 3
    ∧ (∀ k, k ≠ ip → (check_rate_limit now ip st).2 k = st k)
    ∧ ((check_rate_limit now ip st).2 ip
          = (st ip).filter (fun ts => now - ts < 300)
        ∨ (check_rate_limit now ip st).2 ip
          = (st ip).filter (fun ts => now - ts < 300) ++ [now]) := by
  refine ⟨?_, ?_, fun k hk => check_snd_ne now ip st k hk, ?_⟩
  · intro t ht
    rw [check_snd_ip] at ht
    simp only [checkList, RATE_LIMIT_WINDOW, RATE_LIMIT_MAX_REQUESTS] at ht
    split_ifs at ht with h
    · rw [List.mem_filter] at ht
      have h1 := hle t ht.1
      have h2 : now - t < 300 := by simpa using ht.2
      constructor <;> omega
    · rcases List.mem_append.mp ht with ht | ht
      · rw [List.mem_filter] at ht
        have h1 := hle t ht.1
        have h2 : now - t < 300 := by simpa using ht.2
        constructor <;> omega
      · have h3 : t = now := by simpa using ht
        subst h3
        constructor <;> omega
  · rw [check_snd_ip]
    simp only [checkList, RATE_LIMIT_WINDOW, RATE_LIMIT_MAX_REQUESTS]
    split_ifs with h
    · exact le_trans (List.length_filter_le _ _) hlen
    · simp only [List.length_append, List.length_singleton]
      omega
  · rw [check_snd_ip]
    simp only [checkList, RATE_LIMIT_WINDOW, RATE_LIMIT_MAX_REQUESTS]
    split_ifs with h
    · left; rfl
    · right; rfl

/-- Witness for C7 at a concrete one-entry table. -/
theorem c7_table_invariant_witness :
    ((check_rate_limit 10 "c" (fun _ => [])).2 "c").length ≤ 3 :=
  (c7_table_invariant 10 "c" (fun _ => []) (by simp) (by simp)).2.1

/-- C6. Dispatcher totality and configuration short-circuit: the embedded
`send_loan_notification` is a total function into a result record (no
exception escapes). When the admin address is not configured it returns
the configuration-error result and the relay is never contacted (`none`
outbound call); the same holds when no auth token is available, whose
exception the function catches itself. Once the relay is contacted, a
status-200 reply yields success; any other status yields failure whose
error comes from the reply's structured `message` field when present and
otherwise falls back to a generic service-error message; a transport
failure yields failure carrying the exception's description. -/
theorem c6_dispatcher_totality_and_config (env : MailEnv)
    (relay : RelayOutcome) (bt ba bn be : String) :
    (truthy env.ADMIN_EMAIL = false →
      send_loan_notification env relay bt ba bn be
        = ({ success := false, error := some "Admin email not configured" },
           none))
    ∧ (truthy env.ADMIN_EMAIL = true → get_auth_token env = none →
        send_loan_notification env relay bt ba bn be
          = ({ success := false, error := some NO_AUTH_TOKEN_MSG }, none))
    ∧ (∀ tok jm text, truthy env.ADMIN_EMAIL = true →
        get_auth_token env = some tok →
        relay = RelayOutcome.reply 200 jm text →
        (send_loan_notification env relay bt ba bn be).1
          = { success := true, message := some "Notification sent successfully" })
    ∧ (∀ tok code jm text, truthy env.ADMIN_EMAIL = true →
        get_auth_token env = some tok →
        relay = RelayOutcome.reply code jm text → code ≠ 200 →
        (send_loan_notification env relay bt ba bn be).1.success = false
        ∧ (send_loan_notification env relay bt ba bn be).1.error
            = some (match jm with
                    | some (some m) => m
                    | some none => "Email service error: " ++ toString code
                    | none =>
                      "Email service error: " ++ toString code ++ " - " ++ text))
    ∧ (∀ tok desc, truthy env.ADMIN_EMAIL = true →
        get_auth_token env = some tok →
        relay = RelayOutcome.transportError desc →
        (send_loan_notification env relay bt ba bn be).1
          = { success := false, error := some desc }) := by
  refine ⟨?_, ?_, ?_, ?_, ?_⟩
  · intro h1
    simp [send_loan_notification, h1]
  · intro h1 h2
    simp [send_loan_notification, h1, h2]
  · rintro tok jm text h1 h2 rfl
    simp [send_loan_notification, h1, h2]
  · rintro tok code jm text h1 h2 rfl h4
    rcases jm with _ | jm2
    · simp [send_loan_notification, h1, h2, h4]
    · rcases jm2 with _ | m <;> simp [send_loan_notification, h1, h2, h4]
  · rintro tok desc h1 h2 rfl
    simp [send_loan_notification, h1, h2]

/-- Witness for C6 with the admin address unset. -/
theorem c6_dispatcher_totality_and_config_witness :
    send_loan_notification ⟨none, none, none⟩
        (RelayOutcome.transportError "boom") "t" "a" "n" "e"
      = ({ success := false, error := some "Admin email not configured" },
         none) :=
  (c6_dispatcher_totality_and_config ⟨none, none, none⟩
    (RelayOutcome.transportError "boom") "t" "a" "n" "e").1 rfl

/-- C5. Handler step order and status mapping on
`POST /api/loan-notification`: the rate gate runs first and a rejected
client gets 429 with the rate-limit body whatever the rest of the request
holds; an admitted request then hits the 10000-byte size check (413 on
excess), then JSON parsing (400 "Invalid JSON"), then validation (400
with the validator's message), then dispatch, whose result is the
response body verbatim with status 200 on success and 500 otherwise. -/
theorem c5_handler_pipeline (env : MailEnv) (relay : RelayOutcome)
    (req : PostRequest) (st : RateState) :
    ((check_rate_limit req.now req.client_ip st).1 = false →
      (do_POST env relay req st).1
        = { status := 429,
            body := { success := false,
                      error := some "Rate limit exceeded. Please try again later." } })
    ∧ ((check_rate_limit req.now req.client_ip st).1 = true →
       ∀ len, req.content_length = some len → 10000 < len →
        (do_POST env relay req st).1
          = { status := 413,
              body := { success := false, error := some "Request too large" } })
    ∧ ((check_rate_limit req.now req.client_ip st).1 = true →
       ∀ len, req.content_length = some len → len ≤ 10000 →
       req.body = none →
        (do_POST env relay req st).1
          = { status := 400,
              body := { success := false, error := some "Invalid JSON" } })
    ∧ ((check_rate_limit req.now req.client_ip st).1 = true →
       ∀ len, req.content_length = some len → len ≤ 10000 →
       ∀ data, req.body = some data → (validate_loan_request data).1 = false →
        (do_POST env relay req st).1
          = { status := 400,
              body := { success := false,
                        error := some (validate_loan_request data).2.1 } })
    ∧ ((check_rate_limit req.now req.client_ip st).1 = true →
       ∀ len, req.content_length = some len → len ≤ 10000 →
       ∀ data, req.body = some data → (validate_loan_request data).1 = true →
        (do_POST env relay req st).1.body
          = (send_loan_notification env relay
              ((validate_loan_request data).2.2.book_title.getD "")
              ((validate_loan_request data).2.2.book_author.getD "")
              ((validate_loan_request data).2.2.borrower_name.getD "")
              ((validate_loan_request data).2.2.borrower_email.getD "")).1
        ∧ (do_POST env relay req st).1.status
          = (if (send_loan_notification env relay
              ((validate_loan_request data).2.2.book_title.getD "")
              ((validate_loan_request data).2.2.book_author.getD "")
              ((validate_loan_request data).2.2.borrower_name.getD "")
              ((validate_loan_request data).2.2.borrower_email.getD "")).1.success
             then 200 else 500)) := by
  rcases hcr : check_rate_limit req.now req.client_ip st with ⟨b, st2⟩
  refine ⟨?_, ?_, ?_, ?_, ?_⟩
  · intro h
    simp only at h
    subst h
    simp [do_POST, hcr]
  · intro h len hlen h10
    simp only at h
    subst h
    simp [do_POST, hcr, hlen, h10]
  · intro h len hlen h10 hbody
    simp only at h
    subst h
    simp [do_POST, hcr, hlen, hbody, Nat.not_lt.mpr h10]
  · intro h len hlen h10 data hbody hv
    simp only at h
    subst h
    rcases hval : validate_loan_request data with ⟨ok, msg, d2⟩
    rw [hval] at hv
    simp only at hv
    subst hv
    simp [do_POST, hcr, hlen, hbody, hval, Nat.not_lt.mpr h10]
  · intro h len hlen h10 data hbody hv
    simp only at h
    subst h
    rcases hval : validate_loan_request data with ⟨ok, msg, d2⟩
    rw [hval] at hv
    simp only at hv
    subst hv
    simp [do_POST, hcr, hlen, hbody, hval, Nat.not_lt.mpr h10]

/-- The rate table of a client that already spent its three requests at
time 0. -/
def deniedState : RateState := fun _ => [0, 0, 0]

/-- A POST carrying no Content-Length header and an unparseable body. -/
def bareRequest : PostRequest :=
  { client_ip := "c", now := 0, content_length := none, body := none }

/-- Witness for C5: the rejected-client conjunct at a concrete request. -/
theorem c5_handler_pipeline_witness :
    (do_POST ⟨none, none, none⟩ (RelayOutcome.transportError "boom")
        bareRequest deniedState).1
      = { status := 429,
          body := { success := false,
                    error := some "Rate limit exceeded. Please try again later." } } :=
  (c5_handler_pipeline ⟨none, none, none⟩
    (RelayOutcome.transportError "boom") bareRequest deniedState).1 (by decide)

/-- C10. A missing Content-Length header on an admitted request is an
internal error: the handler answers 500 with the generic error body the
catch-all exception branch builds from the `TypeError` of `int(None)` —
not 413 and not 400. -/
theorem c10_missing_content_length (env : MailEnv) (relay : RelayOutcome)
    (req : PostRequest) (st : RateState)
    (hgate : (check_rate_limit req.now req.client_ip st).1 = true)
    (hnone : req.content_length = none) :
    (do_POST env relay req st).1.status = 500
    ∧ (do_POST env relay req st).1.body
        = { success := false, error := some CONTENT_LENGTH_TYPE_ERROR }
    ∧ (do_POST env relay req st).1.status ≠ 413
    ∧ (do_POST env relay req st).1.status ≠ 400 := by
  rcases hcr : check_rate_limit req.now req.client_ip st with ⟨b, st2⟩
  rw [hcr] at hgate
  simp only at hgate
  subst hgate
  simp [do_POST, hcr, hnone]

/-- Witness for C10 at a concrete admitted request. -/
theorem c10_missing_content_length_witness :
    (do_POST ⟨none, none, none⟩ (RelayOutcome.transportError "boom")
        bareRequest (fun _ => [])).1.status = 500 :=
  (c10_missing_content_length ⟨none, none, none⟩
    (RelayOutcome.transportError "boom") bareRequest (fun _ => [])
    (by decide) rfl).1

example : emailPyMatch "ana@example.com" = true := by decide

example : emailPyMatch "not-an-email" = false := by decide

example : emailAnchored ("ana@example.com" ++ String.mk [Char.ofNat 10]).data = false := by decide

example : emailPyMatch ("ana@example.com" ++ String.mk [Char.ofNat 10]) = true := by decide

example : sanitize "<>" = "" := by decide
